import Mathlib

/-!
Verification of the RIFF/WAV structural dumper (`src/riff.c`).

The byte buffer handed to the parser is modelled as a `List Nat` of byte
values; the C iterator pair `(it, end)` over a view is modelled by the list
of bytes still to be consumed (the bytes from `it` up to `end`), so
`remaining_read` is the list length and advancing the pointer is `List.drop`.
Multi-byte integers are decoded little-endian, as the C code does by
`memcpy` into `uint32_t`/`uint16_t` on a little-endian host.  The text the
program prints on `stdout` along the successful path is modelled as a
`String` result; parsing failure (`EXIT_FAILURE`) is `none`.
-/

/-- Byte values of a string literal (ASCII tags such as "RIFF", "INFO"). -/
def strBytes (s : String) : List Nat := s.toList.map Char.toNat

/-- Render raw bytes as the characters `printf "%.*s"` would emit. -/
def bytesToString (l : List Nat) : String := String.mk (l.map Char.ofNat)

/-- A single-quote character, as printed by `printf "'"` in the dump. -/
def quoteS : String := String.mk [Char.ofNat 39]

/-- Little-endian decoding of 4 bytes into a `uint32_t` (memcpy on LE host). -/
def u32dec (l : List Nat) : Nat :=
  l.getD 0 0 + l.getD 1 0 * 256 + l.getD 2 0 * 65536 + l.getD 3 0 * 16777216

/-- Little-endian decoding of 2 bytes into a `uint16_t` (memcpy on LE host). -/
def u16dec (l : List Nat) : Nat :=
  l.getD 0 0 + l.getD 1 0 * 256

/-- Little-endian encoding of a 32-bit value into 4 bytes. -/
def u32le (n : Nat) : List Nat :=
  [n % 256, n / 256 % 256, n / 65536 % 256, n / 16777216 % 256]

/-- Little-endian encoding of a 16-bit value into 2 bytes. -/
def u16le (n : Nat) : List Nat :=
  [n % 256, n / 256 % 256]

/-- C `remaining_read(it, end)`: the number of bytes left in the view, here
the length of the list of not-yet-consumed bytes. -/
def remaining_read (it : List Nat) : Nat := it.length

/-- C `read_bytes(it, end, buf, bytes)`: fails (returns `NULL`, here `none`)
when fewer than `bytes` bytes remain, otherwise hands out the next `bytes`
bytes (the `memcpy` into `buf`) and the advanced iterator `it + bytes`. -/
def read_bytes (it : List Nat) (bytes : Nat) : Option (List Nat × List Nat) :=
  if remaining_read it < bytes then none
  else some (it.take bytes, it.drop bytes)

/-- C `is_ascii(buf, len)`: `isascii` on each (signed) `char`, i.e. every
byte value is in `0..127`. -/
def is_ascii (buf : List Nat) : Bool := buf.all (fun b => b < 128)

/-- C `print_raw(it, len)`: escape a byte run for display; NUL prints as
`\0`, newline as `\n`, bytes in `' '..'~'` verbatim, anything else `\??`. -/
def print_raw : List Nat → String
  | [] => ""
  | c :: rest =>
    (if c = 0 then "\\0"
     else if c = 10 then "\\n"
     else if 32 ≤ c ∧ c ≤ 126 then String.mk [Char.ofNat c]
     else "\\??") ++ print_raw rest

/-- Concatenate `n` copies of a string (the per-pad-byte `printf "\\0"`). -/
def repeatStr (s : String) : Nat → String
  | 0 => ""
  | k + 1 => s ++ repeatStr s k

/-- One tagged text field of a `LIST`/`INFO` payload: 4-byte tag, declared
size, the `size` text bytes, and the count of trailing NUL pad bytes the
parser consumed after the text. -/
structure InfoField where
  tag : List Nat
  size : Nat
  text : List Nat
  pad : Nat
deriving Repr, DecidableEq

/-- One iteration of the field-scanning loop of `parse_subchunk_INFO`
(src/riff.c lines 99-131): read the 4-byte tag, read the 4-byte size, fail
if `size` exceeds the remaining bytes, consume the text, then consume every
trailing NUL byte (the permissive pad-skip `while` loop).  Returns the text
printed for the field, the field record, and the advanced iterator. -/
def info_step (it : List Nat) : Option (String × InfoField × List Nat) :=
  match read_bytes it 4 with
  | none => none
  | some (tagb, it1) =>
    match read_bytes it1 4 with
    | none => none
    | some (sizeb, it2) =>
      let size := u32dec sizeb
      if remaining_read it2 < size then none
      else
        let text := it2.take size
        let it3 := it2.drop size
        let pads := (it3.takeWhile (fun b => b == 0)).length
        some ("\t" ++ bytesToString tagb ++ "[size: " ++ Nat.repr size ++ ", "
                ++ quoteS ++ print_raw text ++ quoteS ++ "]"
                ++ (if pads == 0 then ""
                    else "Extra[" ++ repeatStr "\\0" pads ++ "]")
                ++ "\n",
              ⟨tagb, size, text, pads⟩,
              it3.drop pads)

theorem read_bytes_len {it : List Nat} {n : Nat} {buf rest : List Nat}
    (h : read_bytes it n = some (buf, rest)) : rest.length + n = it.length := by
  unfold read_bytes remaining_read at h
  split at h
  · exact absurd h (by simp)
  next hc =>
    simp only [Option.some.injEq, Prod.mk.injEq] at h
    obtain ⟨-, hr⟩ := h
    subst hr
    simp only [List.length_drop]
    omega

theorem info_step_consumes {it : List Nat} {s : String} {f : InfoField}
    {rest : List Nat} (h : info_step it = some (s, f, rest)) :
    rest.length + 8 ≤ it.length := by
  unfold info_step at h
  split at h
  · exact absurd h (by simp)
  next tagb it1 heq1 =>
    split at h
    · exact absurd h (by simp)
    next sizeb it2 heq2 =>
      simp only at h
      split at h
      · exact absurd h (by simp)
      · simp only [Option.some.injEq, Prod.mk.injEq] at h
        obtain ⟨-, -, hrest⟩ := h
        have e1 := read_bytes_len heq1
        have e2 := read_bytes_len heq2
        subst hrest
        simp only [List.length_drop]
        omega

/-- The field-scanning `while (remaining_read(it, end))` loop of
`parse_subchunk_INFO`: run `info_step` until the view is exhausted,
accumulating the printed text and the field records; any failing step
aborts the whole loop with `EXIT_FAILURE` (`none`). -/
def info_fields (it : List Nat) : Option (String × List InfoField) :=
  if remaining_read it = 0 then some ("", [])
  else
    match h : info_step it with
    | none => none
    | some (out, f, rest) =>
      match info_fields rest with
      | none => none
      | some (out2, fs) => some (out ++ out2, f :: fs)
termination_by remaining_read it
decreasing_by
  have := info_step_consumes h
  simp only [remaining_read]
  omega

/-- C `parse_subchunk_INFO(raw, length)` (src/riff.c lines 87-138) over the
view `raw` of exactly the `LIST` chunk's declared payload: read the 4-byte
list type; if it is `INFO`, scan the tagged fields, else print an ellipsis
and succeed with no fields.  Returns the printed text and, for an `INFO`
list, the parsed fields. -/
def parse_subchunk_INFO (raw : List Nat) : Option (String × Option (List InfoField)) :=
  match read_bytes raw 4 with
  | none => none
  | some (buf, it) =>
    if buf == strBytes "INFO" then
      match info_fields it with
      | none => none
      | some (out, fs) => some (bytesToString buf ++ "[\n" ++ out ++ "]", some fs)
    else
      some ("...", none)

/-- One top-level subchunk as recorded by the walker: its 4-byte ID, its
declared size, and — when it was a `LIST` chunk — the INFO parser's result
(`some fields` for an `INFO` list, `none` inside for another list type). -/
structure Chunk where
  id : List Nat
  size : Nat
  info : Option (Option (List InfoField))
deriving Repr, DecidableEq

/-- One iteration of the top-level subchunk walker loop of `parse_RIFF`
(src/riff.c lines 234-269): read the 4-byte ID, fail unless `is_ascii`,
read the 4-byte size, fail if `size` exceeds the remaining bytes, dispatch
(`LIST` to `parse_subchunk_INFO`, ASCII payload printed, otherwise an
ellipsis) and advance by exactly `size` bytes.  `subchunk` is the
already-incremented ordinal printed in the `SubChunk%dId` label. -/
def walk_step (subchunk : Nat) (it : List Nat) : Option (String × Chunk × List Nat) :=
  match read_bytes it 4 with
  | none => none
  | some (idb, it1) =>
    if is_ascii idb = false then none
    else
      match read_bytes it1 4 with
      | none => none
      | some (sizeb, it2) =>
        let size := u32dec sizeb
        if remaining_read it2 < size then none
        else
          let header := "[SubChunk" ++ Nat.repr subchunk ++ "Id: " ++ quoteS
            ++ bytesToString idb ++ quoteS ++ ", size: " ++ Nat.repr size ++ ", "
          if idb == strBytes "LIST" then
            match parse_subchunk_INFO (it2.take size) with
            | none => none
            | some (out, fs) =>
              some (header ++ out ++ "]\n", ⟨idb, size, some fs⟩, it2.drop size)
          else
            some (header
                    ++ (if is_ascii (it2.take size) then print_raw (it2.take size)
                        else "...")
                    ++ "]\n",
                  ⟨idb, size, none⟩, it2.drop size)

theorem walk_step_consumes {k : Nat} {it : List Nat} {s : String} {c : Chunk}
    {rest : List Nat} (h : walk_step k it = some (s, c, rest)) :
    rest.length + 8 ≤ it.length := by
  unfold walk_step at h
  split at h
  · exact absurd h (by simp)
  next idb it1 heq1 =>
    split at h
    · exact absurd h (by simp)
    · split at h
      · exact absurd h (by simp)
      next sizeb it2 heq2 =>
        simp only at h
        split at h
        · exact absurd h (by simp)
        · have e1 := read_bytes_len heq1
          have e2 := read_bytes_len heq2
          split at h
          · split at h
            · exact absurd h (by simp)
            · simp only [Option.some.injEq, Prod.mk.injEq] at h
              obtain ⟨-, -, hrest⟩ := h
              subst hrest
              simp only [List.length_drop]
              omega
          · simp only [Option.some.injEq, Prod.mk.injEq] at h
            obtain ⟨-, -, hrest⟩ := h
            subst hrest
            simp only [List.length_drop]
            omega

/-- The `while (remaining_read(it, end) > 0)` subchunk-walker loop of
`parse_RIFF`: run `walk_step` with an incremented subchunk ordinal until
the file is exhausted; any failing step aborts with `EXIT_FAILURE`. -/
def walk_loop (it : List Nat) (subchunk : Nat) : Option (String × List Chunk) :=
  if remaining_read it = 0 then some ("", [])
  else
    match h : walk_step (subchunk + 1) it with
    | none => none
    | some (out, c, rest) =>
      match walk_loop rest (subchunk + 1) with
      | none => none
      | some (out2, cs) => some (out ++ out2, c :: cs)
termination_by remaining_read it
decreasing_by
  have := walk_step_consumes h
  simp only [remaining_read]
  omega
set_option maxHeartbeats 1600000 in
/-- C `AudioFormat(format)` (src/riff.c lines 309-1050): the numeric
codec-ID to name lookup table; unknown codes render as their decimal value
(the `sprintf("%d", format)` fallback). -/
def AudioFormat (format : Nat) : String :=
  match format with
  | 0x0000 => "Unknown"
  | 0x0001 => "PCM"
  | 0x0002 => "Microsoft ADPCM"
  | 0x0003 => "Microsoft IEEE float"
  | 0x0004 => "Compaq VSELP"
  | 0x0005 => "IBM CVSD"
  | 0x0006 => "ITU G.711 a-law"
  | 0x0007 => "ITU G.711 u-law"
  | 0x0008 => "Microsoft DTS"
  | 0x0009 => "DRM"
  | 0x000A => "WMA 9 Speech"
  | 0x000B => "Microsoft Windows Media RT Voice"
  | 0x0010 => "OKI-ADPCM"
  | 0x0011 => "Intel IMA/DVI-ADPCM"
  | 0x0012 => "Videologic Mediaspace ADPCM"
  | 0x0013 => "Sierra ADPCM"
  | 0x0014 => "Antex G.723 ADPCM"
  | 0x0015 => "DSP Solutions DIGISTD"
  | 0x0016 => "DSP Solutions DIGIFIX"
  | 0x0017 => "Dialogic OKI ADPCM"
  | 0x0018 => "Media Vision ADPCM"
  | 0x0019 => "HP CU"
  | 0x001A => "HP Dynamic Voice"
  | 0x0020 => "Yamaha ADPCM"
  | 0x0021 => "SONARC Speech Compression"
  | 0x0022 => "DSP Group True Speech"
  | 0x0023 => "Echo Speech Corp."
  | 0x0024 => "Virtual Music Audiofile AF36"
  | 0x0025 => "Audio Processing Tech."
  | 0x0026 => "Virtual Music Audiofile AF10"
  | 0x0027 => "Aculab Prosody 1612"
  | 0x0028 => "Merging Tech. LRC"
  | 0x0030 => "Dolby AC2"
  | 0x0031 => "Microsoft GSM610"
  | 0x0032 => "MSN Audio"
  | 0x0033 => "Antex ADPCM"
  | 0x0034 => "Control Resources VQLPC"
  | 0x0035 => "DSP Solutions DIGIREAL"
  | 0x0036 => "DSP Solutions DIGIADPCM"
  | 0x0037 => "Control Resources CR10"
  | 0x0038 => "Natural MicroSystems VBX ADPCM"
  | 0x0039 => "Crystal Semiconductors IMA ADPCM"
  | 0x003A => "Echo Speech ECHOSC3"
  | 0x003B => "Rockwell ADPCM"
  | 0x003C => "Rockwell DIGITALK"
  | 0x003D => "Xebec Multimedia"
  | 0x0040 => "Antex G.721 ADPCM"
  | 0x0041 => "Antex G.728 CELP"
  | 0x0042 => "Microsoft MSG723"
  | 0x0043 => "IBM AVC ADPCM"
  | 0x0045 => "ITU-T G.726"
  | 0x0050 => "Microsoft MPEG"
  | 0x0051 => "RT23 or PAC"
  | 0x0052 => "InSoft RT24"
  | 0x0053 => "InSoft PAC"
  | 0x0055 => "MP3"
  | 0x0059 => "Cirrus"
  | 0x0060 => "Cirrus Logic"
  | 0x0061 => "ESS Tech. PCM"
  | 0x0062 => "Voxware Inc."
  | 0x0063 => "Canopus ATRAC"
  | 0x0064 => "APICOM G.726 ADPCM"
  | 0x0065 => "APICOM G.722 ADPCM"
  | 0x0066 => "Microsoft DSAT"
  | 0x0067 => "Microsoft DSAT-DISPLAY"
  | 0x0069 => "Voxware Byte Aligned"
  | 0x0070 => "Voxware ACB"
  | 0x0071 => "Voxware AC10"
  | 0x0072 => "Voxware AC16"
  | 0x0073 => "Voxware AC20"
  | 0x0074 => "Voxware MetaVoice"
  | 0x0075 => "Voxware MetaSound"
  | 0x0076 => "Voxware RT29HW"
  | 0x0077 => "Voxware VR12"
  | 0x0078 => "Voxware VR18"
  | 0x0079 => "Voxware TQ40"
  | 0x007A => "Voxware SC3"
  | 0x007B => "Voxware SC3"
  | 0x0080 => "Soundsoft"
  | 0x0081 => "Voxware TQ60"
  | 0x0082 => "Microsoft MSRT24"
  | 0x0083 => "AT&T G.729A"
  | 0x0084 => "Motion Pixels MVI-MV12"
  | 0x0085 => "DataFusion G.726"
  | 0x0086 => "DataFusion GSM610"
  | 0x0088 => "Iterated Systems Audio"
  | 0x0089 => "Onlive"
  | 0x008A => "Multitude, Inc. FT SX20"
  | 0x008B => "Infocom IT’S A/S G.721 ADPCM"
  | 0x008C => "Convedia G729"
  | 0x008D => "Congruency, Inc. (not specified)"
  | 0x0091 => "Siemens SBC24"
  | 0x0092 => "Sonic Foundry Dolby AC3 APDIF"
  | 0x0093 => "MediaSonic G.723"
  | 0x0094 => "Aculab Prosody 8kbps"
  | 0x0097 => "ZyXEL ADPCM"
  | 0x0098 => "Philips LPCBB"
  | 0x0099 => "Studer Professional Audio Packed"
  | 0x00A0 => "Maiden PhonyTalk"
  | 0x00A1 => "Racal Recorder GSM"
  | 0x00A2 => "Racal Recorder G720.a"
  | 0x00A3 => "Racal G723.1"
  | 0x00A4 => "Racal Tetra ACELP"
  | 0x00B0 => "NEC AAC NEC Corporation"
  | 0x00FF => "AAC"
  | 0x0100 => "Rhetorex ADPCM"
  | 0x0101 => "IBM u-Law"
  | 0x0102 => "IBM a-Law"
  | 0x0103 => "IBM ADPCM"
  | 0x0111 => "Vivo G.723"
  | 0x0112 => "Vivo Siren"
  | 0x0120 => "Philips Speech Processing CELP"
  | 0x0121 => "Philips Speech Processing GRUNDIG"
  | 0x0123 => "Digital G.723"
  | 0x0125 => "Sanyo LD ADPCM"
  | 0x0130 => "Sipro Lab ACEPLNET"
  | 0x0131 => "Sipro Lab ACELP4800"
  | 0x0132 => "Sipro Lab ACELP8V3"
  | 0x0133 => "Sipro Lab G.729"
  | 0x0134 => "Sipro Lab G.729A"
  | 0x0135 => "Sipro Lab Kelvin"
  | 0x0136 => "VoiceAge AMR"
  | 0x0140 => "Dictaphone G.726 ADPCM"
  | 0x0150 => "Qualcomm PureVoice"
  | 0x0151 => "Qualcomm HalfRate"
  | 0x0155 => "Ring Zero Systems TUBGSM"
  | 0x0160 => "Microsoft Audio1"
  | 0x0161 => "Windows Media Audio V2 V7 V8 V9 / DivX audio (WMA) / Alex AC3 Audio"
  | 0x0162 => "Windows Media Audio Professional V9"
  | 0x0163 => "Windows Media Audio Lossless V9"
  | 0x0164 => "WMA Pro over S/PDIF"
  | 0x0170 => "UNISYS NAP ADPCM"
  | 0x0171 => "UNISYS NAP ULAW"
  | 0x0172 => "UNISYS NAP ALAW"
  | 0x0173 => "UNISYS NAP 16K"
  | 0x0174 => "MM SYCOM ACM SYC008 SyCom Technologies"
  | 0x0175 => "MM SYCOM ACM SYC701 G726L SyCom Technologies"
  | 0x0176 => "MM SYCOM ACM SYC701 CELP54 SyCom Technologies"
  | 0x0177 => "MM SYCOM ACM SYC701 CELP68 SyCom Technologies"
  | 0x0178 => "Knowledge Adventure ADPCM"
  | 0x0180 => "Fraunhofer IIS MPEG2AAC"
  | 0x0190 => "Digital Theater Systems DTS DS"
  | 0x0200 => "Creative Labs ADPCM"
  | 0x0202 => "Creative Labs FASTSPEECH8"
  | 0x0203 => "Creative Labs FASTSPEECH10"
  | 0x0210 => "UHER ADPCM"
  | 0x0215 => "Ulead DV ACM"
  | 0x0216 => "Ulead DV ACM"
  | 0x0220 => "Quarterdeck Corp."
  | 0x0230 => "I-Link VC"
  | 0x0240 => "Aureal Semiconductor Raw Sport"
  | 0x0241 => "ESST AC3"
  | 0x0250 => "Interactive Products HSX"
  | 0x0251 => "Interactive Products RPELP"
  | 0x0260 => "Consistent CS2"
  | 0x0270 => "Sony SCX"
  | 0x0271 => "Sony SCY"
  | 0x0272 => "Sony ATRAC3"
  | 0x0273 => "Sony SPC"
  | 0x0280 => "TELUM Telum Inc."
  | 0x0281 => "TELUMIA Telum Inc."
  | 0x0285 => "Norcom Voice Systems ADPCM"
  | 0x0300 => "Fujitsu FM TOWNS SND"
  | 0x0301 => "Fujitsu (not specified)"
  | 0x0302 => "Fujitsu (not specified)"
  | 0x0303 => "Fujitsu (not specified)"
  | 0x0304 => "Fujitsu (not specified)"
  | 0x0305 => "Fujitsu (not specified)"
  | 0x0306 => "Fujitsu (not specified)"
  | 0x0307 => "Fujitsu (not specified)"
  | 0x0308 => "Fujitsu (not specified)"
  | 0x0350 => "Micronas Semiconductors, Inc. Development"
  | 0x0351 => "Micronas Semiconductors, Inc. CELP833"
  | 0x0400 => "Brooktree Digital"
  | 0x0401 => "Intel Music Coder (IMC)"
  | 0x0402 => "Ligos Indeo Audio"
  | 0x0450 => "QDesign Music"
  | 0x0500 => "On2 VP7 On2 Technologies"
  | 0x0501 => "On2 VP6 On2 Technologies"
  | 0x0680 => "AT&T VME VMPCM"
  | 0x0681 => "AT&T TCP"
  | 0x0700 => "YMPEG Alpha (dummy for MPEG-2 compressor)"
  | 0x08AE => "ClearJump LiteWave (lossless)"
  | 0x1000 => "Olivetti GSM"
  | 0x1001 => "Olivetti ADPCM"
  | 0x1002 => "Olivetti CELP"
  | 0x1003 => "Olivetti SBC"
  | 0x1004 => "Olivetti OPR"
  | 0x1100 => "Lernout & Hauspie"
  | 0x1101 => "Lernout & Hauspie CELP codec"
  | 0x1102 => "Lernout & Hauspie SBC codec"
  | 0x1103 => "Lernout & Hauspie SBC codec"
  | 0x1104 => "Lernout & Hauspie SBC codec"
  | 0x1400 => "Norris Comm. Inc."
  | 0x1401 => "ISIAudio"
  | 0x1500 => "AT&T Soundspace Music Compression"
  | 0x181C => "VoxWare RT24 speech codec"
  | 0x181E => "Lucent elemedia AX24000P Music codec"
  | 0x1971 => "Sonic Foundry LOSSLESS"
  | 0x1979 => "Innings Telecom Inc. ADPCM"
  | 0x1C07 => "Lucent SX8300P speech codec"
  | 0x1C0C => "Lucent SX5363S G.723 compliant codec"
  | 0x1F03 => "CUseeMe DigiTalk (ex-Rocwell)"
  | 0x1FC4 => "NCT Soft ALF2CD ACM"
  | 0x2000 => "FAST Multimedia DVM"
  | 0x2001 => "Dolby DTS (Digital Theater System)"
  | 0x2002 => "RealAudio 1 / 2 14.4"
  | 0x2003 => "RealAudio 1 / 2 28.8"
  | 0x2004 => "RealAudio G2 / 8 Cook (low bitrate)"
  | 0x2005 => "RealAudio 3 / 4 / 5 Music (DNET)"
  | 0x2006 => "RealAudio 10 AAC (RAAC)"
  | 0x2007 => "RealAudio 10 AAC+ (RACP)"
  | 0x2500 => "Reserved range to 0x2600 Microsoft"
  | 0x3313 => "makeAVIS (ffvfw fake AVI sound from AviSynth scripts)"
  | 0x4143 => "Divio MPEG-4 AAC audio"
  | 0x4201 => "Nokia adaptive multirate"
  | 0x4243 => "Divio G726 Divio, Inc."
  | 0x434C => "LEAD Speech"
  | 0x564C => "LEAD Vorbis"
  | 0x5756 => "WavPack Audio"
  | 0x674F => "Ogg Vorbis (mode 1)"
  | 0x6750 => "Ogg Vorbis (mode 2)"
  | 0x6751 => "Ogg Vorbis (mode 3)"
  | 0x676F => "Ogg Vorbis (mode 1+)"
  | 0x6770 => "Ogg Vorbis (mode 2+)"
  | 0x6771 => "Ogg Vorbis (mode 3+)"
  | 0x7000 => "3COM NBX 3Com Corporation"
  | 0x706D => "FAAD AAC"
  | 0x7A21 => "GSM-AMR (CBR, no SID)"
  | 0x7A22 => "GSM-AMR (VBR, including SID)"
  | 0xA100 => "Comverse Infosys Ltd. G723 1"
  | 0xA101 => "Comverse Infosys Ltd. AVQSBC"
  | 0xA102 => "Comverse Infosys Ltd. OLDSBC"
  | 0xA103 => "Symbol Technologies G729A"
  | 0xA104 => "VoiceAge AMR WB VoiceAge Corporation"
  | 0xA105 => "Ingenient Technologies Inc. G726"
  | 0xA106 => "ISO/MPEG-4 advanced audio Coding"
  | 0xA107 => "Encore Software Ltd G726"
  | 0xA109 => "Speex ACM Codec xiph.org"
  | 0xDFAC => "DebugMode SonicFoundry Vegas FrameServer ACM Codec"
  | 0xE708 => "Unknown"
  | 0xF1AC => "Free Lossless Audio Codec FLAC"
  | 0xFFFE => "Extensible"
  | 0xFFFF => "Development"
  | _ => Nat.repr format

/-- The six fixed fields of the `fmt ` chunk plus its declared size, as read
and printed by the second block of `parse_RIFF` (src/riff.c lines 179-232). -/
structure Fmt where
  size : Nat
  audio_format : Nat
  num_channels : Nat
  sample_rate : Nat
  byte_rate : Nat
  block_align : Nat
  bits_per_sample : Nat
deriving Repr, DecidableEq

/-- Everything `parse_RIFF` establishes on a successful parse: the declared
RIFF chunk size, the 4 format-tag bytes, the `fmt ` record, and the
top-level subchunks the walker visited after `fmt `. -/
structure RiffData where
  chunk_size : Nat
  format : List Nat
  fmt : Fmt
  chunks : List Chunk
deriving Repr, DecidableEq

/-- C `parse_RIFF(raw, length)` (src/riff.c lines 140-272): validate the
12-byte RIFF preamble (magic `RIFF`, declared chunk size checked against the
remaining bytes before the format tag is read), then the fixed `fmt ` chunk,
then run the subchunk walker to the end of the buffer.  `none` models
`EXIT_FAILURE`; on success the printed dump and the parsed data are
returned. -/
def parse_RIFF (raw : List Nat) : Option (String × RiffData) :=
  match read_bytes raw 4 with
  | none => none
  | some (magic, it1) =>
    if magic == strBytes "RIFF" then
      match read_bytes it1 4 with
      | none => none
      | some (csb, it2) =>
        let chunk_size := u32dec csb
        if remaining_read it2 < chunk_size then none
        else
          match read_bytes it2 4 with
          | none => none
          | some (formatb, it3) =>
            let headerOut := "RIFF[ChunkSize: " ++ Nat.repr chunk_size
              ++ ", Format: " ++ quoteS ++ bytesToString formatb ++ quoteS ++ "]\n"
            match read_bytes it3 4 with
            | none => none
            | some (fmtid, it4) =>
              if fmtid == strBytes "fmt " then
                match read_bytes it4 4 with
                | none => none
                | some (szb, it5) =>
                  match read_bytes it5 2 with
                  | none => none
                  | some (afb, it6) =>
                    match read_bytes it6 2 with
                    | none => none
                    | some (ncb, it7) =>
                      match read_bytes it7 4 with
                      | none => none
                      | some (srb, it8) =>
                        match read_bytes it8 4 with
                        | none => none
                        | some (brb, it9) =>
                          match read_bytes it9 2 with
                          | none => none
                          | some (bab, it10) =>
                            match read_bytes it10 2 with
                            | none => none
                            | some (bpsb, it11) =>
                              let fmt : Fmt := ⟨u32dec szb, u16dec afb,
                                u16dec ncb, u32dec srb, u32dec brb,
                                u16dec bab, u16dec bpsb⟩
                              let fmtOut := "[SubChunk1Id: " ++ quoteS
                                ++ "fmt " ++ quoteS ++ ", size: "
                                ++ Nat.repr fmt.size ++ ", AudioFormat: "
                                ++ quoteS ++ AudioFormat fmt.audio_format
                                ++ quoteS ++ ", NumChannels: "
                                ++ Nat.repr fmt.num_channels
                                ++ ", SampleRate: " ++ Nat.repr fmt.sample_rate
                                ++ ", ByteRate: " ++ Nat.repr fmt.byte_rate
                                ++ ", BlockAlign: " ++ Nat.repr fmt.block_align
                                ++ ", BitsPerSample: "
                                ++ Nat.repr fmt.bits_per_sample ++ "]\n"
                              match walk_loop it11 1 with
                              | none => none
                              | some (wout, cs) =>
                                some (headerOut ++ fmtOut ++ wout,
                                      ⟨chunk_size, formatb, fmt, cs⟩)
              else none
    else none

/-- C `main` (src/riff.c lines 274-307).  A wrong argument count only makes
`main` print a usage line to `stderr`; it does not return, so execution
falls through to opening `args[1]` regardless.  `file` is `none` when
`open`/`fstat`/`mmap` fails and `some raw` when the file was mapped; the
result is the process exit code. -/
def main_model (argc : Nat) (file : Option (List Nat)) : Nat :=
  match file with
  | none => 1
  | some raw =>
    match parse_RIFF raw with
    | none => 1
    | some _ => 0

theorem strBytes_RIFF : strBytes "RIFF" = [82, 73, 70, 70] := rfl
theorem strBytes_WAVE : strBytes "WAVE" = [87, 65, 86, 69] := rfl
theorem strBytes_fmt : strBytes "fmt " = [102, 109, 116, 32] := rfl

theorem read_bytes4 (a b c d : Nat) (l : List Nat) :
    read_bytes (a :: b :: c :: d :: l) 4 = some ([a, b, c, d], l) := by
  unfold read_bytes remaining_read
  rw [if_neg (by simp)]
  rfl

theorem read_bytes2 (a b : Nat) (l : List Nat) :
    read_bytes (a :: b :: l) 2 = some ([a, b], l) := by
  unfold read_bytes remaining_read
  rw [if_neg (by simp)]
  rfl

set_option maxHeartbeats 1600000 in
theorem AudioFormat_PCM : AudioFormat 1 = "PCM" := rfl

def hdr36 : List Nat :=
  strBytes "RIFF" ++ u32le 36 ++ strBytes "WAVE" ++ strBytes "fmt " ++ u32le 16
    ++ u16le 1 ++ u16le 1 ++ u32le 8000 ++ u32le 16000 ++ u16le 2 ++ u16le 16

def wavFmt : Fmt := ⟨16, 1, 1, 8000, 16000, 2, 16⟩

def hdr36out : String :=
  "RIFF[ChunkSize: 36, Format: " ++ quoteS ++ "WAVE" ++ quoteS
    ++ "]\n[SubChunk1Id: " ++ quoteS ++ "fmt " ++ quoteS
    ++ ", size: 16, AudioFormat: " ++ quoteS ++ "PCM" ++ quoteS
    ++ ", NumChannels: 1, SampleRate: 8000, ByteRate: 16000, BlockAlign: 2, BitsPerSample: 16]\n"

set_option maxRecDepth 8000 in
theorem parse_hdr36_append (t : List Nat) (ht : 8 ≤ t.length) :
    parse_RIFF (hdr36 ++ t) =
      (walk_loop t 1).map
        (fun p => (hdr36out ++ p.1, ⟨36, strBytes "WAVE", wavFmt, p.2⟩)) := by
  simp only [hdr36, strBytes_RIFF, strBytes_WAVE, strBytes_fmt, u32le, u16le,
    List.cons_append, List.nil_append, List.append_nil]
  simp only [parse_RIFF, read_bytes4, read_bytes2]
  simp [u32dec, u16dec, remaining_read, strBytes_RIFF, strBytes_fmt,
        AudioFormat_PCM, hdr36out, quoteS, bytesToString]
  rw [if_neg (show ¬ (t.length + 28 < 36) by omega)]
  rcases hw : walk_loop t 1 with _ | ⟨wout, cs⟩
  · rfl
  · simp only [Option.map_some']
    congr 1

theorem strBytes_LIST : strBytes "LIST" = [76, 73, 83, 84] := rfl
theorem strBytes_INFO : strBytes "INFO" = [73, 78, 70, 79] := rfl
theorem strBytes_data : strBytes "data" = [100, 97, 116, 97] := rfl
theorem strBytes_IART : strBytes "IART" = [73, 65, 82, 84] := rfl

theorem u32le_length (n : Nat) : (u32le n).length = 4 := rfl

theorem u32dec_u32le {n : Nat} (h : n < 4294967296) : u32dec (u32le n) = n := by
  simp [u32dec, u32le]
  omega

theorem read_bytes_exact {a : List Nat} {n : Nat} (b : List Nat)
    (h : a.length = n) : read_bytes (a ++ b) n = some (a, b) := by
  unfold read_bytes remaining_read
  rw [if_neg (by rw [List.length_append, h]; omega),
      List.take_left' h, List.drop_left' h]

theorem read_bytes_of_le {it : List Nat} {n : Nat} (h : n ≤ it.length) :
    read_bytes it n = some (it.take n, it.drop n) := by
  unfold read_bytes remaining_read
  rw [if_neg (by omega)]

theorem read_bytes_some_eq {it : List Nat} {n : Nat} {buf rest : List Nat}
    (h : read_bytes it n = some (buf, rest)) :
    buf = it.take n ∧ rest = it.drop n := by
  unfold read_bytes at h
  split at h
  · exact absurd h (by simp)
  · simp only [Option.some.injEq, Prod.mk.injEq] at h
    exact ⟨h.1.symm, h.2.symm⟩

/-- C2: `read_bytes` returns the next `n` bytes and advances the cursor by
exactly `n` (the remaining view shrinks from `remaining_read it` to
`remaining_read it - n`) whenever at least `n` bytes remain; otherwise it
fails with the underrun result `none`, consuming nothing — there is no
partial advance, the iterator is only ever handed out on success. -/
theorem C2_read_bytes_contract (it : List Nat) (n : Nat) :
    (n ≤ remaining_read it →
      read_bytes it n = some (it.take n, it.drop n) ∧
      remaining_read (it.drop n) = remaining_read it - n) ∧
    (remaining_read it < n → read_bytes it n = none) := by
  constructor
  · intro h
    refine ⟨read_bytes_of_le h, ?_⟩
    simp [remaining_read]
  · intro h
    unfold read_bytes
    rw [if_pos h]

/-- Witness for C2 at a concrete cursor: reading 2 of 3 bytes succeeds and
advances by exactly 2; reading 5 of 2 bytes fails. -/
theorem C2_read_bytes_contract_witness :
    (read_bytes [1, 2, 3] 2 = some ([1, 2], [3]) ∧
      remaining_read (([1, 2, 3] : List Nat).drop 2) = remaining_read [1, 2, 3] - 2) ∧
    read_bytes [1, 2] 5 = none :=
  ⟨(C2_read_bytes_contract [1, 2, 3] 2).1 (by decide),
   (C2_read_bytes_contract [1, 2] 5).2 (by decide)⟩

/-- C1: at all three size-check sites — the RIFF header's ChunkSize
(src/riff.c line 165), a top-level subchunk's declared size (line 246) and
an INFO field's declared size (line 110) — a declared 32-bit size exceeding
the bytes remaining in the enclosing view makes the parse fail with the
overflow error before any payload byte is read: the failure is `none` for
every possible content `rest` of the truncated tail, so the result depends
on no payload byte, and no read past the end of the view occurs. -/
theorem C1_overflow_before_payload :
    (∀ (n : Nat) (rest : List Nat), n < 4294967296 → rest.length < n →
        parse_RIFF (strBytes "RIFF" ++ u32le n ++ rest) = none) ∧
    (∀ (k : Nat) (id : List Nat) (n : Nat) (rest : List Nat),
        id.length = 4 → is_ascii id = true → n < 4294967296 → rest.length < n →
        walk_step k (id ++ u32le n ++ rest) = none) ∧
    (∀ (tag : List Nat) (n : Nat) (rest : List Nat),
        tag.length = 4 → n < 4294967296 → rest.length < n →
        info_step (tag ++ u32le n ++ rest) = none) := by
  refine ⟨?_, ?_, ?_⟩
  · intro n rest h32 hlen
    rw [List.append_assoc]
    simp only [parse_RIFF,
      read_bytes_exact (u32le n ++ rest) (by rfl : (strBytes "RIFF").length = 4)]
    rw [if_pos (by simp)]
    rw [read_bytes_exact rest (u32le_length n)]
    simp only [u32dec_u32le h32]
    rw [if_pos (by simpa [remaining_read] using hlen)]
  · intro k id n rest h4 hasc h32 hlen
    rw [List.append_assoc]
    simp only [walk_step, read_bytes_exact (u32le n ++ rest) h4]
    rw [hasc]
    simp only [Bool.true_eq_false, if_false]
    rw [read_bytes_exact rest (u32le_length n)]
    simp only [u32dec_u32le h32]
    rw [if_pos (by simpa [remaining_read] using hlen)]
  · intro tag n rest h4 h32 hlen
    rw [List.append_assoc]
    simp only [info_step, read_bytes_exact (u32le n ++ rest) h4]
    rw [read_bytes_exact rest (u32le_length n)]
    simp only [u32dec_u32le h32]
    rw [if_pos (by simpa [remaining_read] using hlen)]

/-- Witness for C1: each of the three overflow checks fires on a buffer
that ends exactly where the declared size starts claiming too much. -/
theorem C1_overflow_before_payload_witness :
    parse_RIFF (strBytes "RIFF" ++ u32le 1 ++ []) = none ∧
    walk_step 2 (strBytes "data" ++ u32le 1 ++ []) = none ∧
    info_step (strBytes "IART" ++ u32le 1 ++ []) = none :=
  ⟨C1_overflow_before_payload.1 1 [] (by decide) (by decide),
   C1_overflow_before_payload.2.1 2 (strBytes "data") 1 [] (by decide) (by decide)
     (by decide) (by decide),
   C1_overflow_before_payload.2.2 (strBytes "IART") 1 [] (by decide) (by decide)
     (by decide)⟩

theorem walk_loop_nil (k : Nat) : walk_loop [] k = some ("", []) := by
  unfold walk_loop
  rfl

theorem walk_loop_cons (it : List Nat) (k : Nat) (h : remaining_read it ≠ 0) :
    walk_loop it k =
      match walk_step (k + 1) it with
      | none => none
      | some (out, c, rest) =>
        match walk_loop rest (k + 1) with
        | none => none
        | some (out2, cs) => some (out ++ out2, c :: cs) := by
  conv_lhs => rw [walk_loop]
  rw [if_neg h]
  rcases hw : walk_step (k + 1) it with _ | ⟨out, c, rest⟩
  · rfl
  · rfl

theorem info_fields_nil : info_fields [] = some ("", []) := by
  unfold info_fields
  rfl

theorem info_fields_cons (it : List Nat) (h : remaining_read it ≠ 0) :
    info_fields it =
      match info_step it with
      | none => none
      | some (out, f, rest) =>
        match info_fields rest with
        | none => none
        | some (out2, fs) => some (out ++ out2, f :: fs) := by
  conv_lhs => rw [info_fields]
  rw [if_neg h]
  rcases hw : info_step it with _ | ⟨out, f, rest⟩
  · rfl
  · rfl

def c5input : List Nat := hdr36 ++ strBytes "data" ++ u32le 0

def c5out : String :=
  hdr36out ++ "[SubChunk2Id: " ++ quoteS ++ "data" ++ quoteS ++ ", size: 0, ]\n"

theorem walk_step_data0 :
    walk_step 2 [100, 97, 116, 97, 0, 0, 0, 0] =
      some ("[SubChunk2Id: " ++ quoteS ++ "data" ++ quoteS ++ ", size: 0, "
              ++ "" ++ "]\n",
            ⟨[100, 97, 116, 97], 0, none⟩, []) := rfl

theorem parse_c5input :
    parse_RIFF c5input =
      some (c5out, ⟨36, strBytes "WAVE", wavFmt, [⟨strBytes "data", 0, none⟩]⟩) := by
  unfold c5input
  rw [List.append_assoc, parse_hdr36_append _ (by decide)]
  rw [show strBytes "data" ++ u32le 0 = [100, 97, 116, 97, 0, 0, 0, 0] from rfl]
  rw [walk_loop_cons _ _ (by decide)]
  simp only [Nat.reduceAdd]
  rw [walk_step_data0]
  simp only []
  rw [walk_loop_nil]
  simp only [Option.map_some']
  congr 1

/-- Counterexample for C5: the byte string the claim enumerates — `"RIFF" +
u32(36) + "WAVE" + "fmt " + u32(16) + u16(1) + u16(1) + u32(8000) +
u32(16000) + u16(2) + u16(16)` with no further bytes — is 36 bytes long,
not 44, and on it the parse fails with the ChunkSize overflow error
(declared 36 > 28 remaining) and exit code 1, not 0. -/
theorem C5_counterexample :
    parse_RIFF hdr36 = none ∧ main_model 2 (some hdr36) = 1 :=
  ⟨rfl, rfl⟩

/-- C5 (amended): on the 44-byte input obtained by following the enumerated
bytes with the empty `data` subchunk header `"data" + u32(0)` — which is
what makes the declared ChunkSize 36 and the 44-byte length of the claim
consistent — the parse succeeds with exit code 0, and the output reports
ChunkSize: 36, Format: 'WAVE', AudioFormat: 'PCM', NumChannels: 1,
SampleRate: 8000, ByteRate: 16000, BlockAlign: 2, BitsPerSample: 16
(followed by the line for the empty data chunk). -/
theorem C5_scenario :
    c5input.length = 44 ∧
    parse_RIFF c5input =
      some (c5out, ⟨36, strBytes "WAVE", wavFmt, [⟨strBytes "data", 0, none⟩]⟩) ∧
    main_model 2 (some c5input) = 0 :=
  ⟨rfl, parse_c5input, by simp [main_model, parse_c5input]⟩

/-- C3: `main` prints a usage line when `argc != 2` but forgets to return,
so it falls through and parses `args[1]` anyway: with 2 command-line
arguments (argc = 3) and a parseable file the process exits 0 despite the
wrong argument count.  The second half of the claim does hold: exit code 0
happens only when `parse_RIFF` succeeded. -/
theorem C3_argc_fallthrough :
    (main_model 3 (some c5input) = 0 ∧ 3 ≠ 2) ∧
    (∀ (argc : Nat) (file : Option (List Nat)), main_model argc file = 0 →
      ∃ raw r, file = some raw ∧ parse_RIFF raw = some r) := by
  refine ⟨⟨by simp [main_model, parse_c5input], by decide⟩, ?_⟩
  intro argc file h
  match file with
  | none => exact absurd h (by simp [main_model])
  | some raw =>
    match hr : parse_RIFF raw with
    | none => rw [main_model, hr] at h; exact absurd h (by simp)
    | some r => exact ⟨raw, r, rfl, hr⟩

/-- Witness for C3: applying the exit-code-0 direction at a concrete
successful invocation. -/
theorem C3_argc_fallthrough_witness :
    ∃ raw r, (some c5input : Option (List Nat)) = some raw ∧ parse_RIFF raw = some r :=
  C3_argc_fallthrough.2 2 (some c5input) (by simp [main_model, parse_c5input])

/-- Counterexample for C4: the chunk ID `00 00 00 00` consists of
non-printable bytes (byte 0 is outside `' '..'~'`), yet the walker does not
fail with the non-ASCII-chunk-ID error: `is_ascii` only rejects bytes
≥ 0x80, so the parse proceeds past this ID and succeeds. -/
theorem C4_counterexample :
    ¬ (32 ≤ (0 : Nat) ∧ (0 : Nat) ≤ 126) ∧
    parse_RIFF (hdr36 ++ [0, 0, 0, 0] ++ u32le 0) =
      some (hdr36out ++ "[SubChunk2Id: " ++ quoteS ++ bytesToString [0, 0, 0, 0]
              ++ quoteS ++ ", size: 0, ]\n",
            ⟨36, strBytes "WAVE", wavFmt, [⟨[0, 0, 0, 0], 0, none⟩]⟩) := by
  refine ⟨by decide, ?_⟩
  rw [List.append_assoc, parse_hdr36_append _ (by decide)]
  rw [show ([0, 0, 0, 0] : List Nat) ++ u32le 0 = [0, 0, 0, 0, 0, 0, 0, 0] from rfl]
  rw [walk_loop_cons _ _ (by decide)]
  simp only [Nat.reduceAdd]
  rw [show walk_step 2 [0, 0, 0, 0, 0, 0, 0, 0] =
        some ("[SubChunk2Id: " ++ quoteS ++ bytesToString [0, 0, 0, 0] ++ quoteS
                ++ ", size: 0, " ++ "" ++ "]\n",
              ⟨[0, 0, 0, 0], 0, none⟩, []) from rfl]
  simp only []
  rw [walk_loop_nil]
  simp only [Option.map_some']
  congr 1

/-- C4 (amended): the walker's ID guard is `isascii`, not printability: it
fails on an ID containing a byte outside 7-bit ASCII (≥ 0x80), and
`is_ascii` holds exactly when every byte is < 128 — so IDs made of
non-printable control bytes below 0x80 pass the guard. -/
theorem C4_ascii_guard :
    (∀ (k : Nat) (it : List Nat), 4 ≤ it.length → is_ascii (it.take 4) = false →
        walk_step k it = none) ∧
    (∀ id : List Nat, is_ascii id = true ↔ ∀ b ∈ id, b < 128) := by
  constructor
  · intro k it h4 hasc
    unfold walk_step
    rw [read_bytes_of_le h4]
    simp only []
    rw [hasc]
    rw [if_pos rfl]
  · intro id
    simp [is_ascii]

/-- Witness for C4's amended guard: an ID starting with byte 0xC8 makes the
walker fail even with a well-formed size field behind it. -/
theorem C4_ascii_guard_witness :
    walk_step 2 [200, 0, 0, 0, 0, 0, 0, 0] = none :=
  C4_ascii_guard.1 2 [200, 0, 0, 0, 0, 0, 0, 0] (by decide) (by decide)

/-- C6: when the walker dispatches a subchunk, the declared size it records
is the little-endian value of bytes 4..8 of the chunk, and the iterator
after dispatch is exactly the chunk bytes dropped by `8 + size`: the walker
advances by exactly the declared size and never skips a word-alignment pad
byte after an odd-length payload (any such pad byte stays in `rest`). -/
theorem C6_walker_exact_advance :
    ∀ (k : Nat) (it : List Nat) (out : String) (c : Chunk) (rest : List Nat),
      walk_step k it = some (out, c, rest) →
      c.size = u32dec ((it.drop 4).take 4) ∧ rest = (it.drop 8).drop c.size := by
  intro k it out c rest h
  unfold walk_step at h
  split at h
  · exact absurd h (by simp)
  next idb it1 heq1 =>
    split at h
    · exact absurd h (by simp)
    · split at h
      · exact absurd h (by simp)
      next sizeb it2 heq2 =>
        simp only at h
        split at h
        · exact absurd h (by simp)
        · obtain ⟨hbuf1, hit1⟩ := read_bytes_some_eq heq1
          obtain ⟨hbuf2, hit2⟩ := read_bytes_some_eq heq2
          subst hit1 hit2 hbuf2
          split at h
          · split at h
            · exact absurd h (by simp)
            · simp only [Option.some.injEq, Prod.mk.injEq] at h
              obtain ⟨-, hc, hrest⟩ := h
              subst hc hrest
              refine ⟨rfl, ?_⟩
              simp only [List.drop_drop]
          · simp only [Option.some.injEq, Prod.mk.injEq] at h
            obtain ⟨-, hc, hrest⟩ := h
            subst hc hrest
            refine ⟨rfl, ?_⟩
            simp only [List.drop_drop]

/-- Witness for C6 at a chunk with odd declared size 1 whose payload is
followed by a NUL byte: the walker's advance leaves that byte unconsumed
(`rest = [0]`), i.e. no padding skip happens at top level. -/
theorem C6_walker_exact_advance_witness :
    (Chunk.mk [100, 97, 116, 97] 1 none).size
        = u32dec ((([100, 97, 116, 97, 1, 0, 0, 0, 65, 0] : List Nat).drop 4).take 4) ∧
    ([0] : List Nat)
        = (([100, 97, 116, 97, 1, 0, 0, 0, 65, 0] : List Nat).drop 8).drop
            (Chunk.mk [100, 97, 116, 97] 1 none).size :=
  C6_walker_exact_advance 2 [100, 97, 116, 97, 1, 0, 0, 0, 65, 0]
    ("[SubChunk2Id: " ++ quoteS ++ "data" ++ quoteS ++ ", size: 1, " ++ "A" ++ "]\n")
    ⟨[100, 97, 116, 97], 1, none⟩ [0] rfl

theorem info_step_exact (tag text : List Nat) (h4 : tag.length = 4)
    (h32 : text.length < 4294967296) :
    info_step (tag ++ (u32le text.length ++ text)) =
      some ("\t" ++ bytesToString tag ++ "[size: " ++ Nat.repr text.length ++ ", "
              ++ quoteS ++ print_raw text ++ quoteS ++ "]" ++ "" ++ "\n",
            ⟨tag, text.length, text, 0⟩, []) := by
  unfold info_step
  rw [read_bytes_exact _ h4]
  simp only []
  rw [read_bytes_exact _ (u32le_length _)]
  simp only [u32dec_u32le h32]
  rw [if_neg (by simp [remaining_read])]
  simp [List.take_length, List.drop_length, List.takeWhile]

theorem info_step_exact_pad (tag text : List Nat) (h4 : tag.length = 4)
    (h32 : text.length < 4294967296) :
    info_step (tag ++ (u32le text.length ++ (text ++ [0]))) =
      some ("\t" ++ bytesToString tag ++ "[size: " ++ Nat.repr text.length ++ ", "
              ++ quoteS ++ print_raw text ++ quoteS ++ "]"
              ++ ("Extra[" ++ repeatStr "\\0" 1 ++ "]") ++ "\n",
            ⟨tag, text.length, text, 1⟩, []) := by
  unfold info_step
  rw [read_bytes_exact _ h4]
  simp only []
  rw [read_bytes_exact _ (u32le_length _)]
  simp only [u32dec_u32le h32]
  rw [if_neg (by simp [remaining_read])]
  rw [List.take_left' rfl, List.drop_left' rfl]
  simp [List.takeWhile]

/-- C7: inside an INFO list, a field with an odd-length text payload
followed by exactly one 0x00 pad byte parses identically to the same field
followed by zero pad bytes: the logical field (tag, declared size and text)
is the same, only the recorded pad count and the displayed pad marker
differ — the output with the pad byte is the output without it with the
parser's pad display inserted, and the extracted field text is identical. -/
theorem C7_pad_roundtrip (tag text : List Nat) (h4 : tag.length = 4)
    (hodd : text.length % 2 = 1) (h32 : text.length < 4294967296) :
    ∃ pre post : String,
      parse_subchunk_INFO (strBytes "INFO" ++ tag ++ u32le text.length ++ text) =
        some (pre ++ post, some [⟨tag, text.length, text, 0⟩]) ∧
      parse_subchunk_INFO (strBytes "INFO" ++ tag ++ u32le text.length ++ text ++ [0]) =
        some (pre ++ ("Extra[" ++ "\\0" ++ "]") ++ post,
              some [⟨tag, text.length, text, 1⟩]) := by
  have hb : (strBytes "INFO").length = 4 := rfl
  have hne : remaining_read (tag ++ (u32le text.length ++ text)) ≠ 0 := by
    simp only [remaining_read, List.length_append, h4]
    omega
  have hnep : remaining_read (tag ++ (u32le text.length ++ (text ++ [0]))) ≠ 0 := by
    simp only [remaining_read, List.length_append, h4]
    omega
  refine ⟨bytesToString (strBytes "INFO") ++ "[\n"
            ++ ("\t" ++ bytesToString tag ++ "[size: " ++ Nat.repr text.length
                ++ ", " ++ quoteS ++ print_raw text ++ quoteS ++ "]"),
          "\n" ++ "]", ?_, ?_⟩
  · simp only [List.append_assoc]
    unfold parse_subchunk_INFO
    rw [read_bytes_exact _ hb]
    simp only [beq_self_eq_true, if_pos]
    rw [info_fields_cons _ hne]
    rw [info_step_exact tag text h4 h32]
    simp only []
    rw [info_fields_nil]
    simp [String.append_assoc, String.append_empty]
  · simp only [List.append_assoc]
    unfold parse_subchunk_INFO
    rw [read_bytes_exact _ hb]
    simp only [beq_self_eq_true, if_pos]
    rw [info_fields_cons _ hnep]
    rw [info_step_exact_pad tag text h4 h32]
    simp only []
    rw [info_fields_nil]
    simp [String.append_assoc, String.append_empty, repeatStr]

/-- Witness for C7: the IART/Alice field (5 text bytes, odd) with and
without its pad byte. -/
theorem C7_pad_roundtrip_witness :
    ∃ pre post : String,
      parse_subchunk_INFO (strBytes "INFO" ++ strBytes "IART"
          ++ u32le (strBytes "Alice").length ++ strBytes "Alice") =
        some (pre ++ post,
              some [⟨strBytes "IART", (strBytes "Alice").length, strBytes "Alice", 0⟩]) ∧
      parse_subchunk_INFO (strBytes "INFO" ++ strBytes "IART"
          ++ u32le (strBytes "Alice").length ++ strBytes "Alice" ++ [0]) =
        some (pre ++ ("Extra[" ++ "\\0" ++ "]") ++ post,
              some [⟨strBytes "IART", (strBytes "Alice").length, strBytes "Alice", 1⟩]) :=
  C7_pad_roundtrip (strBytes "IART") (strBytes "Alice") (by decide) (by decide) (by decide)

theorem parse_INFO_only :
    parse_subchunk_INFO [73, 78, 70, 79] =
      some (bytesToString [73, 78, 70, 79] ++ "[\n" ++ "" ++ "]", some []) := by
  unfold parse_subchunk_INFO
  rw [read_bytes4]
  simp only []
  rw [if_pos (by decide : ([73, 78, 70, 79] == strBytes "INFO") = true)]
  rw [info_fields_nil]

theorem walk_step_list4 :
    walk_step 2 [76, 73, 83, 84, 4, 0, 0, 0, 73, 78, 70, 79] =
      some ("[SubChunk" ++ Nat.repr 2 ++ "Id: " ++ quoteS
              ++ bytesToString [76, 73, 83, 84] ++ quoteS ++ ", size: "
              ++ Nat.repr 4 ++ ", "
              ++ (bytesToString [73, 78, 70, 79] ++ "[\n" ++ "" ++ "]") ++ "]\n",
            ⟨[76, 73, 83, 84], 4, some (some [])⟩, []) := by
  unfold walk_step
  rw [read_bytes4]
  simp only []
  rw [if_neg (by decide : ¬ (is_ascii [76, 73, 83, 84] = false))]
  rw [read_bytes4]
  simp only []
  rw [show u32dec [4, 0, 0, 0] = 4 from rfl]
  rw [if_neg (by decide : ¬ (remaining_read [73, 78, 70, 79] < 4))]
  rw [if_pos (by decide : ([76, 73, 83, 84] == strBytes "LIST") = true)]
  rw [show List.take 4 [73, 78, 70, 79] = [73, 78, 70, 79] from rfl]
  rw [parse_INFO_only]
  simp only []
  rw [show List.drop 4 [73, 78, 70, 79] = ([] : List Nat) from rfl]

/-- C8: a `LIST` top-level subchunk whose declared size is less than 4
makes the whole parse fail — the INFO parser's read of the 4-byte
list-type tag underruns its sub-view and the failure propagates out of the
walker — while a declared size of exactly 4 holding only the `INFO` tag
succeeds with an empty field list. -/
theorem C8_list_undersized :
    (∀ (s : Nat) (rest : List Nat), s < 4 → s ≤ rest.length →
        parse_RIFF (hdr36 ++ (strBytes "LIST" ++ u32le s ++ rest)) = none) ∧
    parse_RIFF (hdr36 ++ (strBytes "LIST" ++ u32le 4 ++ strBytes "INFO")) =
      some (hdr36out ++ "[SubChunk2Id: " ++ quoteS ++ "LIST" ++ quoteS
              ++ ", size: 4, INFO[\n]]\n",
            ⟨36, strBytes "WAVE", wavFmt, [⟨strBytes "LIST", 4, some (some [])⟩]⟩) := by
  constructor
  · intro s rest hs hsr
    rw [parse_hdr36_append _ (by simp [strBytes_LIST, u32le])]
    rw [walk_loop_cons _ _ (by simp [remaining_read, strBytes_LIST, u32le])]
    rw [List.append_assoc]
    rw [show walk_step (1 + 1) (strBytes "LIST" ++ (u32le s ++ rest)) = none from ?_]
    · rfl
    unfold walk_step
    rw [read_bytes_exact _ (by rfl : (strBytes "LIST").length = 4)]
    simp only []
    rw [if_neg (by decide : ¬ (is_ascii (strBytes "LIST") = false))]
    rw [read_bytes_exact _ (u32le_length s)]
    simp only [u32dec_u32le (by omega : s < 4294967296)]
    rw [if_neg (by simp [remaining_read]; omega)]
    rw [if_pos (by simp : ((strBytes "LIST" == strBytes "LIST") = true))]
    rw [show parse_subchunk_INFO (rest.take s) = none from by
      unfold parse_subchunk_INFO
      rw [show read_bytes (rest.take s) 4 = none from by
        unfold read_bytes remaining_read
        rw [if_pos (by simp [List.length_take]; omega)]]]
  · rw [parse_hdr36_append _ (by decide)]
    rw [show strBytes "LIST" ++ u32le 4 ++ strBytes "INFO" =
          [76, 73, 83, 84, 4, 0, 0, 0, 73, 78, 70, 79] from rfl]
    rw [walk_loop_cons _ _ (by decide)]
    simp only [Nat.reduceAdd]
    rw [walk_step_list4]
    simp only []
    rw [walk_loop_nil]
    simp only [Option.map_some']
    congr 1

/-- Witness for C8: a LIST chunk declaring size 0 (fewer than the 4 bytes a
list-type tag needs) aborts the entire dump. -/
theorem C8_list_undersized_witness :
    parse_RIFF (hdr36 ++ (strBytes "LIST" ++ u32le 0 ++ [])) = none :=
  C8_list_undersized.1 0 [] (by decide) (by decide)

/-- C9: the RIFF header's declared ChunkSize is checked against the
remaining bytes but never bounds the walk: on a file whose declared extent
ends at byte 44 (8 + ChunkSize 36) yet which carries a further subchunk,
the walker still parses the trailing subchunk instead of ignoring it, and
the parse succeeds only after consuming it. -/
theorem C9_trailing_bytes_parsed (payload : List Nat)
    (h32 : payload.length < 4294967296) (hne : payload ≠ []) :
    44 < (hdr36 ++ (strBytes "data" ++ u32le payload.length ++ payload)).length ∧
    ∃ out, parse_RIFF (hdr36 ++ (strBytes "data" ++ u32le payload.length ++ payload)) =
      some (out, ⟨36, strBytes "WAVE", wavFmt,
                  [⟨strBytes "data", payload.length, none⟩]⟩) := by
  have hple : 1 ≤ payload.length := by
    cases payload
    · exact absurd rfl hne
    · simp
  have h36 : hdr36.length = 36 := rfl
  constructor
  · simp [List.length_append, h36, strBytes_data, u32le]
    omega
  · rw [parse_hdr36_append _ (by simp [strBytes_data, u32le])]
    rw [walk_loop_cons _ _ (by simp [remaining_read, strBytes_data, u32le])]
    rw [List.append_assoc]
    rw [show walk_step (1 + 1) (strBytes "data" ++ (u32le payload.length ++ payload)) =
          some ("[SubChunk" ++ Nat.repr (1 + 1) ++ "Id: " ++ quoteS
                  ++ bytesToString (strBytes "data") ++ quoteS ++ ", size: "
                  ++ Nat.repr payload.length ++ ", "
                  ++ (if is_ascii (payload.take payload.length) then
                        print_raw (payload.take payload.length) else "...")
                  ++ "]\n",
                ⟨strBytes "data", payload.length, none⟩,
                payload.drop payload.length) from ?_]
    · rw [List.drop_length]
      simp only []
      rw [walk_loop_nil]
      exact ⟨_, rfl⟩
    · unfold walk_step
      rw [read_bytes_exact _ (by rfl : (strBytes "data").length = 4)]
      simp only []
      rw [if_neg (by decide : ¬ (is_ascii (strBytes "data") = false))]
      rw [read_bytes_exact _ (u32le_length payload.length)]
      simp only [u32dec_u32le h32]
      rw [if_neg (by simp [remaining_read])]
      rw [if_neg (by decide : ¬ ((strBytes "data" == strBytes "LIST") = true))]

/-- Witness for C9: one trailing byte of payload past the declared extent. -/
theorem C9_trailing_bytes_parsed_witness :
    44 < (hdr36 ++ (strBytes "data" ++ u32le ([65] : List Nat).length ++ [65])).length ∧
    ∃ out, parse_RIFF (hdr36 ++ (strBytes "data" ++ u32le ([65] : List Nat).length ++ [65])) =
      some (out, ⟨36, strBytes "WAVE", wavFmt, [⟨strBytes "data", ([65] : List Nat).length, none⟩]⟩) :=
  C9_trailing_bytes_parsed [65] (by decide) (by decide)

/-- C10: both scanning loops terminate because every successful iteration
consumes at least the 8 header bytes it reads: a walker step and an INFO
field step each leave a remainder at least 8 bytes shorter than their
input (4 ID/tag bytes + 4 size bytes + the non-negative payload and pad
bytes), so the remaining byte count strictly decreases and neither loop
can run forever on any input. -/
theorem C10_loops_terminate :
    (∀ (k : Nat) (it : List Nat) (out : String) (c : Chunk) (rest : List Nat),
        walk_step k it = some (out, c, rest) → rest.length + 8 ≤ it.length) ∧
    (∀ (it : List Nat) (out : String) (f : InfoField) (rest : List Nat),
        info_step it = some (out, f, rest) → rest.length + 8 ≤ it.length) :=
  ⟨fun _ _ _ _ _ h => walk_step_consumes h,
   fun _ _ _ _ h => info_step_consumes h⟩

/-- Witness for C10: a concrete walker step and INFO field step, each
consuming exactly their 8 header bytes. -/
theorem C10_loops_terminate_witness :
    ([] : List Nat).length + 8 ≤ ([100, 97, 116, 97, 0, 0, 0, 0] : List Nat).length ∧
    ([] : List Nat).length + 8 ≤ ([73, 65, 82, 84, 0, 0, 0, 0] : List Nat).length :=
  ⟨C10_loops_terminate.1 2 [100, 97, 116, 97, 0, 0, 0, 0]
      ("[SubChunk2Id: " ++ quoteS ++ "data" ++ quoteS ++ ", size: 0, " ++ "" ++ "]\n")
      ⟨[100, 97, 116, 97], 0, none⟩ [] rfl,
   C10_loops_terminate.2 [73, 65, 82, 84, 0, 0, 0, 0]
      ("\t" ++ "IART" ++ "[size: 0, " ++ quoteS ++ "" ++ quoteS ++ "]" ++ "" ++ "\n")
      ⟨[73, 65, 82, 84], 0, [], 0⟩ [] rfl⟩
